import Mathlib

/-!
Shallow embedding of the LED light bulb controller in `src/script.js`
(class `LEDLightBulb`).  DOM rendering, aria announcements, console
logging and the real timers are external I/O; the state record and the
state-mutating methods are translated here.  JavaScript numbers that the
program uses as integers (brightness, runtime, voltage) are modelled as
`Int`/`Nat`; the energy and power-draw quantities, on which the program
performs division and `Math.round`, are modelled as exact rationals.
-/

/-- JavaScript `Math.round`: round half toward positive infinity. -/
def jsRound (x : ℚ) : ℤ := ⌊x + 1/2⌋

/-- JavaScript falsy-default on a number: `x || d` yields `d` when `x` is `0`. -/
def jsOrInt (x d : ℤ) : ℤ := if x = 0 then d else x

/-- JavaScript falsy-default on a number: `x || d` yields `d` when `x` is `0`. -/
def jsOrRat (x d : ℚ) : ℚ := if x = 0 then d else x

/-- The `this.state` record of `LEDLightBulb` (script.js lines 9-20).
`lastUpdate` (a wall-clock timestamp, never read back) and `autoInterval`
(an opaque timer handle) are omitted; the auto-cycle closure locals are
modelled separately by `cycleStep`. -/
structure BulbState where
  isOn : Bool
  brightness : ℤ
  voltage : ℤ
  temperature : ℤ
  runtime : ℕ
  powerDraw : ℚ
  totalEnergy : ℚ
  autoMode : Bool
  deriving DecidableEq, Repr

/-- Constructor defaults (script.js lines 9-20). -/
def initState : BulbState :=
  { isOn := false, brightness := 50, voltage := 0, temperature := 72,
    runtime := 0, powerDraw := 0, totalEnergy := 0, autoMode := false }

/-- `Math.max(10, Math.min(100, value))` (script.js line 278 and line 42). -/
def clamp (v : ℤ) : ℤ := max 10 (min 100 v)

/-- Power-draw recomputation in `updateStatusPanel` (script.js lines 469-471):
`isOn ? Math.round((14 * brightness / 100) * 10) / 10 : 0`. -/
def computePowerDraw (isOn : Bool) (b : ℤ) : ℚ :=
  if isOn then (jsRound ((14 * (b : ℚ) / 100) * 10) : ℚ) / 10 else 0

/-- Temperature recomputation in `updateStatusPanel` (script.js lines 475-477):
`Math.round(72 + (isOn ? (brightness / 100) * 15 : 0))`. -/
def computeTemperature (isOn : Bool) (b : ℤ) : ℤ :=
  jsRound (72 + (if isOn then ((b : ℚ) / 100) * 15 else 0))

/-- `updateStatusPanel` (script.js lines 462-481): caches `powerDraw` and
`temperature` in the state.  `updateUI` (lines 357-374) calls it; every
other effect of `updateUI` is DOM-only. -/
def updateUI (s : BulbState) : BulbState :=
  { s with powerDraw := computePowerDraw s.isOn s.brightness,
           temperature := computeTemperature s.isOn s.brightness }

/-- `simulatePowerOnSequence` (script.js lines 244-263): the only state
mutation is raising brightness to 30 when it is below 30; the LED warm-up
and vibration are DOM/haptics. -/
def simulatePowerOnSequence (s : BulbState) : BulbState :=
  if s.brightness < 30 then { s with brightness := 30 } else s

/-- `togglePower` (script.js lines 227-242): flips `isOn`; when turning on,
sets `voltage := 120` and runs the power-on sequence; then `updateUI`
(`saveState`, announcements and logging are external effects). -/
def togglePower (s : BulbState) : BulbState :=
  let s1 : BulbState := { s with isOn := !s.isOn }
  let s2 : BulbState :=
    if s1.isOn then simulatePowerOnSequence { s1 with voltage := 120 } else s1
  updateUI s2

/-- `setBrightness` (script.js lines 276-294): clamps the input, and only
when the clamped value differs from the current brightness stores it,
applies the power-on-by-brightness rule (`isOn := true` when off and the
clamped value is at least 30), and refreshes the cached panel values. -/
def setBrightness (v : ℤ) (s : BulbState) : BulbState :=
  let clampedValue := clamp v
  if clampedValue ≠ s.brightness then
    let s1 : BulbState := { s with brightness := clampedValue }
    let s2 : BulbState :=
      if !s1.isOn ∧ 30 ≤ clampedValue then
        simulatePowerOnSequence { s1 with isOn := true }
      else s1
    updateUI s2
  else s

/-- `resetToDefault` (script.js lines 342-355): `isOn := false`,
`brightness := 50`, `autoMode := false`, then `updateUI`. -/
def resetToDefault (s : BulbState) : BulbState :=
  updateUI { s with isOn := false, brightness := 50, autoMode := false }

/-- One firing of the `startRuntimeCounter` interval callback
(script.js lines 501-519): only when `isOn`, increments `runtime` and
recomputes `totalEnergy = Math.round((powerDraw * runtime/3600) * 100) / 100`
from the cached `powerDraw` and the new runtime. -/
def tick (s : BulbState) : BulbState :=
  if s.isOn then
    let runtime := s.runtime + 1
    { s with runtime := runtime,
             totalEnergy :=
               (jsRound ((s.powerDraw * ((runtime : ℚ) / 3600)) * 100) : ℚ) / 100 }
  else s

/-- `n` consecutive firings of the runtime counter. -/
def tickN (n : ℕ) (s : BulbState) : BulbState := tick^[n] s

/-- `turnOn` (script.js lines 565-567): toggles only when currently off. -/
def turnOn (s : BulbState) : BulbState :=
  if !s.isOn then togglePower s else s

/-- `turnOff` (script.js lines 569-571): toggles only when currently on. -/
def turnOff (s : BulbState) : BulbState :=
  if s.isOn then togglePower s else s

/-- The record written by `saveState` (script.js lines 50-60). -/
structure Persisted where
  isOn : Bool
  brightness : ℤ
  totalEnergy : ℚ
  deriving DecidableEq, Repr

/-- `saveState` (script.js lines 50-60): persists exactly `isOn`,
`brightness` and `totalEnergy`. -/
def saveState (s : BulbState) : Persisted :=
  { isOn := s.isOn, brightness := s.brightness, totalEnergy := s.totalEnergy }

/-- `loadState` (script.js lines 36-48) applied to a parsed saved record:
`isOn := parsed.isOn || false`,
`brightness := Math.max(10, Math.min(100, parsed.brightness || 50))`,
`totalEnergy := parsed.totalEnergy || 0`; all other fields keep their
constructor defaults. -/
def loadState (p : Persisted) (s : BulbState) : BulbState :=
  { s with isOn := p.isOn || false,
           brightness := clamp (jsOrInt p.brightness 50),
           totalEnergy := jsOrRat p.totalEnergy 0 }

/-- The auto-cycle closure state of `startAutoCycle` (script.js lines
316-333): the pair `(currentValue, direction)`.  `startAutoCycle` creates
it as `(state.brightness, 1)`. -/
def autoCycleInit (s : BulbState) : ℤ × ℤ := (s.brightness, 1)

/-- One firing of the `startAutoCycle` interval callback (script.js lines
320-332) acting on `(currentValue, direction)`:
`currentValue += direction * 10`; at `>= 100` clamp to `100` and flip to
decreasing; at `<= 10` clamp to `10` and flip to increasing. -/
def cycleStep (p : ℤ × ℤ) : ℤ × ℤ :=
  let v := p.1 + p.2 * 10
  if 100 ≤ v then (100, -1)
  else if v ≤ 10 then (10, 1)
  else (v, p.2)

/-- The auto-cycle closure state after `n` firings, started from
brightness `b`. -/
def cycleIter (b : ℤ) (n : ℕ) : ℤ × ℤ := cycleStep^[n] (b, 1)

/-- Reachable controller states: a fresh session starts from the
constructor defaults, optionally restored from an arbitrary persisted
record (`init` runs `loadState` then `updateUI`, script.js lines 25-34),
and every subsequent mutation goes through the public operations.  The
auto-cycle mutates state only through `setBrightness`, which the `setB`
constructor covers. -/
inductive Reachable : BulbState → Prop
  | fresh : Reachable (updateUI initState)
  | restored (p : Persisted) : Reachable (updateUI (loadState p initState))
  | toggle {s} : Reachable s → Reachable (togglePower s)
  | setB (v : ℤ) {s} : Reachable s → Reachable (setBrightness v s)
  | reset {s} : Reachable s → Reachable (resetToDefault s)
  | step {s} : Reachable s → Reachable (tick s)
  | pubOn {s} : Reachable s → Reachable (turnOn s)
  | pubOff {s} : Reachable s → Reachable (turnOff s)

/-! ### Basic lemmas about the operations -/

lemma clamp_mem (v : ℤ) : 10 ≤ clamp v ∧ clamp v ≤ 100 := by
  unfold clamp; omega

lemma clamp_of_mem {b : ℤ} (h1 : 10 ≤ b) (h2 : b ≤ 100) : clamp b = b := by
  unfold clamp; omega

@[simp] lemma updateUI_isOn (s : BulbState) : (updateUI s).isOn = s.isOn := rfl

@[simp] lemma updateUI_brightness (s : BulbState) :
    (updateUI s).brightness = s.brightness := rfl

@[simp] lemma updateUI_runtime (s : BulbState) : (updateUI s).runtime = s.runtime := rfl

@[simp] lemma updateUI_totalEnergy (s : BulbState) :
    (updateUI s).totalEnergy = s.totalEnergy := rfl

lemma simulatePowerOnSequence_isOn (s : BulbState) :
    (simulatePowerOnSequence s).isOn = s.isOn := by
  unfold simulatePowerOnSequence; split <;> rfl

lemma simulatePowerOnSequence_brightness (s : BulbState) :
    (simulatePowerOnSequence s).brightness =
      if s.brightness < 30 then 30 else s.brightness := by
  unfold simulatePowerOnSequence; split <;> rfl

lemma togglePower_isOn (s : BulbState) : (togglePower s).isOn = !s.isOn := by
  unfold togglePower
  cases h : s.isOn <;> simp [h, simulatePowerOnSequence_isOn]

lemma togglePower_brightness (s : BulbState) :
    (togglePower s).brightness =
      if s.isOn then s.brightness
      else if s.brightness < 30 then 30 else s.brightness := by
  unfold togglePower
  cases h : s.isOn <;> simp [h, simulatePowerOnSequence_brightness]

lemma togglePower_brightness_mem {s : BulbState}
    (h : 10 ≤ s.brightness ∧ s.brightness ≤ 100) :
    10 ≤ (togglePower s).brightness ∧ (togglePower s).brightness ≤ 100 := by
  obtain ⟨h1, h2⟩ := h
  constructor <;> rw [togglePower_brightness] <;> split <;> (try split) <;> omega

lemma setBrightness_eq (v : ℤ) (s : BulbState) :
    setBrightness v s =
      if clamp v = s.brightness then s
      else updateUI (if s.isOn = false ∧ 30 ≤ clamp v
                     then { s with brightness := clamp v, isOn := true }
                     else { s with brightness := clamp v }) := by
  unfold setBrightness simulatePowerOnSequence
  rcases eq_or_ne (clamp v) s.brightness with h | h
  · simp [h]
  · simp only [h, if_neg (by simpa using h), ne_eq, not_false_iff, if_pos]
    cases hOn : s.isOn
    · rcases le_or_lt 30 (clamp v) with h30 | h30
      · simp [hOn, h30, if_neg (by omega : ¬ clamp v < 30)]
      · simp [hOn, if_neg (by omega : ¬ 30 ≤ clamp v)]
    · simp [hOn]

lemma tick_brightness (s : BulbState) : (tick s).brightness = s.brightness := by
  unfold tick; split <;> rfl

lemma tick_isOn (s : BulbState) : (tick s).isOn = s.isOn := by
  unfold tick; split <;> rfl

lemma tick_off {s : BulbState} (h : s.isOn = false) : tick s = s := by
  unfold tick; rw [h]; simp

lemma tickN_off {s : BulbState} (h : s.isOn = false) (n : ℕ) : tickN n s = s := by
  unfold tickN
  induction n with
  | zero => rfl
  | succ n ih => rw [Function.iterate_succ_apply', ih, tick_off h]

/-- Brightness of every reachable state stays in the 10..100 band. -/
lemma reachable_brightness {s : BulbState} (h : Reachable s) :
    10 ≤ s.brightness ∧ s.brightness ≤ 100 := by
  induction h with
  | fresh => exact ⟨by norm_num [updateUI, initState], by norm_num [updateUI, initState]⟩
  | restored p => simpa [loadState] using clamp_mem (jsOrInt p.brightness 50)
  | toggle _ ih => exact togglePower_brightness_mem ih
  | setB v _ ih =>
      obtain ⟨c1, c2⟩ := clamp_mem v
      rw [setBrightness_eq]
      split
      · exact ih
      · split <;> simp <;> omega
  | reset _ ih => simp [resetToDefault]
  | step _ ih => rwa [tick_brightness]
  | pubOn _ ih =>
      unfold turnOn
      split
      · exact togglePower_brightness_mem ih
      · exact ih
  | pubOff _ ih =>
      unfold turnOff
      split
      · exact togglePower_brightness_mem ih
      · exact ih

/-! ### Claims -/

/-- C1: for every reachable state the brightness field lies in [10,100],
and it still does after `setBrightness` with any integer input. -/
theorem brightness_always_in_range {s : BulbState} (h : Reachable s) :
    (10 ≤ s.brightness ∧ s.brightness ≤ 100) ∧
    ∀ v : ℤ, 10 ≤ (setBrightness v s).brightness ∧
      (setBrightness v s).brightness ≤ 100 :=
  ⟨reachable_brightness h, fun v => reachable_brightness (Reachable.setB v h)⟩

/-- Witness for C1 at the fresh start state and input 205. -/
theorem brightness_always_in_range_w :
    10 ≤ (setBrightness 205 (updateUI initState)).brightness ∧
      (setBrightness 205 (updateUI initState)).brightness ≤ 100 :=
  (brightness_always_in_range Reachable.fresh).2 205

/-- C2 counterexample: the reachable state obtained by `setBrightness(35)`
then `togglePower` is off with brightness 35; `setBrightness(35)` there is
a no-op (the clamped value equals the stored brightness), so the bulb does
not power on even though the clamped value is at least 30. -/
theorem setBrightness_noop_keeps_off :
    Reachable (togglePower (setBrightness 35 (updateUI initState))) ∧
    (togglePower (setBrightness 35 (updateUI initState))).isOn = false ∧
    (togglePower (setBrightness 35 (updateUI initState))).brightness = 35 ∧
    30 ≤ clamp 35 ∧
    (setBrightness 35 (togglePower (setBrightness 35 (updateUI initState)))).isOn
      = false :=
  ⟨Reachable.toggle (Reachable.setB 35 Reachable.fresh),
   by decide, by decide, by decide, by decide⟩

/-- C2 (amended): from a state that is off, `setBrightness v` with clamped
value at least 30 turns the bulb on and stores the clamped value, provided
the clamped value differs from the current brightness (otherwise the call
is a no-op). -/
theorem setBrightness_powers_on_when_changed {s : BulbState} {v : ℤ}
    (h1 : s.isOn = false) (h2 : 30 ≤ clamp v) (h3 : clamp v ≠ s.brightness) :
    (setBrightness v s).isOn = true ∧ (setBrightness v s).brightness = clamp v := by
  rw [setBrightness_eq, if_neg h3, if_pos ⟨h1, h2⟩]
  exact ⟨rfl, rfl⟩

/-- Witness for C2 (amended): off at brightness 20, `setBrightness 35`
gives on at brightness 35. -/
theorem setBrightness_powers_on_when_changed_w :
    (setBrightness 35 { initState with brightness := 20 }).isOn = true ∧
    (setBrightness 35 { initState with brightness := 20 }).brightness = clamp 35 :=
  setBrightness_powers_on_when_changed rfl (by decide) (by decide)

/-- C5: from a state that is off, `togglePower` turns the bulb on and
raises the brightness to 30 when it was below 30, leaving it unchanged
otherwise. -/
theorem togglePower_on_min_brightness {s : BulbState} (h : s.isOn = false) :
    (togglePower s).isOn = true ∧
    (togglePower s).brightness =
      if s.brightness < 30 then 30 else s.brightness := by
  constructor
  · simp [togglePower_isOn, h]
  · simp [togglePower_brightness, h]

/-- Witness for C5: off at stored brightness 10, toggling on gives
brightness 30. -/
theorem togglePower_on_min_brightness_w :
    (togglePower { initState with brightness := 10 }).isOn = true ∧
    (togglePower { initState with brightness := 10 }).brightness = 30 :=
  togglePower_on_min_brightness rfl

/-- C3 refutation on the code: the runtime counter recomputes
`totalEnergy` from the cached power draw and the current session runtime
alone, discarding the previous total, so a tick while the bulb is on can
decrease it.  From the reachable state restored from the persisted record
with `isOn = true`, `brightness = 100`, `totalEnergy = 14`, a single tick
drops `totalEnergy` from 14 to 0. -/
theorem tick_energy_not_monotone :
    Reachable (updateUI (loadState ⟨true, 100, 14⟩ initState)) ∧
    (updateUI (loadState ⟨true, 100, 14⟩ initState)).isOn = true ∧
    (updateUI (loadState ⟨true, 100, 14⟩ initState)).totalEnergy = 14 ∧
    (tick (updateUI (loadState ⟨true, 100, 14⟩ initState))).totalEnergy = 0 ∧
    (tick (updateUI (loadState ⟨true, 100, 14⟩ initState))).totalEnergy
      < (updateUI (loadState ⟨true, 100, 14⟩ initState)).totalEnergy := by
  have he : (updateUI (loadState ⟨true, 100, 14⟩ initState)).totalEnergy = 14 := by
    simp [updateUI, loadState, initState, jsOrRat]
  have ht : (tick (updateUI (loadState ⟨true, 100, 14⟩ initState))).totalEnergy = 0 := by
    simp [tick, updateUI, loadState, initState, jsOrInt, jsOrRat, clamp,
      computePowerDraw, computeTemperature, jsRound]
    norm_num
  refine ⟨Reachable.restored ⟨true, 100, 14⟩, rfl, he, ht, ?_⟩
  rw [he, ht]; norm_num

/-- C4 refutation on the code: a tick assigns
`totalEnergy := round(powerDraw * runtime/3600 * 100)/100` instead of
adding the rounded increment.  From the reachable state restored from the
persisted record with `isOn = true`, `brightness = 100`,
`totalEnergy = 5`, one tick advances the runtime to 1 but sets
`totalEnergy` to 0, while the claimed update (add the 2-decimal rounding
of `powerDraw * 1/3600`) would leave it at 5. -/
theorem tick_clobbers_restored_energy :
    Reachable (updateUI (loadState ⟨true, 100, 5⟩ initState)) ∧
    (updateUI (loadState ⟨true, 100, 5⟩ initState)).isOn = true ∧
    (updateUI (loadState ⟨true, 100, 5⟩ initState)).runtime = 0 ∧
    (updateUI (loadState ⟨true, 100, 5⟩ initState)).totalEnergy = 5 ∧
    (updateUI (loadState ⟨true, 100, 5⟩ initState)).powerDraw = 14 ∧
    (tick (updateUI (loadState ⟨true, 100, 5⟩ initState))).runtime = 1 ∧
    (updateUI (loadState ⟨true, 100, 5⟩ initState)).totalEnergy +
        (jsRound (((updateUI (loadState ⟨true, 100, 5⟩ initState)).powerDraw *
          ((1 : ℚ) / 3600)) * 100) : ℚ) / 100 = 5 ∧
    (tick (updateUI (loadState ⟨true, 100, 5⟩ initState))).totalEnergy = 0 := by
  refine ⟨Reachable.restored ⟨true, 100, 5⟩, rfl, rfl, ?_, ?_, ?_, ?_, ?_⟩
  · simp [updateUI, loadState, initState, jsOrRat]
  · simp [updateUI, loadState, initState, jsOrInt, clamp, computePowerDraw, jsRound]
    norm_num
  · simp [tick, updateUI, loadState, initState]
  · simp [updateUI, loadState, initState, jsOrInt, jsOrRat, clamp,
      computePowerDraw, jsRound]
    norm_num
  · simp [tick, updateUI, loadState, initState, jsOrInt, jsOrRat, clamp,
      computePowerDraw, computeTemperature, jsRound]
    norm_num

lemma cycleStep_mem {p : ℤ × ℤ} (hv : 10 ≤ p.1 ∧ p.1 ≤ 100) :
    10 ≤ (cycleStep p).1 ∧ (cycleStep p).1 ≤ 100 := by
  obtain ⟨h1, h2⟩ := hv
  unfold cycleStep
  dsimp only
  split
  · exact ⟨by norm_num, le_refl 100⟩
  · split
    · exact ⟨le_refl 10, by norm_num⟩
    · next hx hy => exact ⟨by omega, by omega⟩

lemma cycleIter_mem (b : ℤ) (hb : 10 ≤ b ∧ b ≤ 100) (n : ℕ) :
    10 ≤ (cycleIter b n).1 ∧ (cycleIter b n).1 ≤ 100 := by
  induction n with
  | zero => simpa [cycleIter] using hb
  | succ n ih =>
      have h : cycleIter b (n + 1) = cycleStep (cycleIter b n) := by
        unfold cycleIter
        rw [Function.iterate_succ_apply']
      rw [h]
      exact cycleStep_mem ih

/-- C6: the auto-cycle is a deterministic triangle wave: starting from any
brightness in [10,100] every generated value stays in [10,100], and from
brightness 95 the first values are 100 (clamped, direction flips),
90, 80, ... down to 10, then back up. -/
theorem autoCycle_triangle_wave (b : ℤ) (h1 : 10 ≤ b) (h2 : b ≤ 100) :
    (∀ n : ℕ, 10 ≤ (cycleIter b n).1 ∧ (cycleIter b n).1 ≤ 100) ∧
    (b = 95 →
      (List.range 20).map (fun n => (cycleIter b n).1) =
        [95, 100, 90, 80, 70, 60, 50, 40, 30, 20, 10,
         20, 30, 40, 50, 60, 70, 80, 90, 100]) := by
  refine ⟨fun n => cycleIter_mem b ⟨h1, h2⟩ n, fun hb => ?_⟩
  subst hb
  decide

/-- Witness for C6 at start brightness 95. -/
theorem autoCycle_triangle_wave_w :
    (10 ≤ (cycleIter 95 3).1 ∧ (cycleIter 95 3).1 ≤ 100) ∧
    (List.range 20).map (fun n => (cycleIter 95 n).1) =
      [95, 100, 90, 80, 70, 60, 50, 40, 30, 20, 10,
       20, 30, 40, 50, 60, 70, 80, 90, 100] :=
  ⟨(autoCycle_triangle_wave 95 (by decide) (by decide)).1 3,
   (autoCycle_triangle_wave 95 (by decide) (by decide)).2 rfl⟩

/-- C7: persisting a reachable state and restoring the record into a
fresh session reproduces `isOn`, `brightness` and `totalEnergy`, with the
runtime counter starting at 0. -/
theorem save_load_roundtrip {s : BulbState} (h : Reachable s) :
    (updateUI (loadState (saveState s) initState)).isOn = s.isOn ∧
    (updateUI (loadState (saveState s) initState)).brightness = s.brightness ∧
    (updateUI (loadState (saveState s) initState)).totalEnergy = s.totalEnergy ∧
    (updateUI (loadState (saveState s) initState)).runtime = 0 := by
  obtain ⟨h1, h2⟩ := reachable_brightness h
  refine ⟨?_, ?_, ?_, rfl⟩
  · simp [loadState, saveState]
  · have hz : ¬ s.brightness = 0 := by omega
    simp [loadState, saveState, jsOrInt, hz]
    exact clamp_of_mem h1 h2
  · simp [loadState, saveState, jsOrRat]
    exact fun h0 => h0.symm

/-- Witness for C7 at the fresh start state. -/
theorem save_load_roundtrip_w :
    (updateUI (loadState (saveState (updateUI initState)) initState)).isOn
      = (updateUI initState).isOn ∧
    (updateUI (loadState (saveState (updateUI initState)) initState)).brightness
      = (updateUI initState).brightness ∧
    (updateUI (loadState (saveState (updateUI initState)) initState)).totalEnergy
      = (updateUI initState).totalEnergy ∧
    (updateUI (loadState (saveState (updateUI initState)) initState)).runtime = 0 :=
  save_load_roundtrip Reachable.fresh

/-- C8: while the bulb is off, any number of runtime-counter firings
leaves both the runtime and the accumulated energy unchanged. -/
theorem tick_off_leaves_counters {s : BulbState} (h : s.isOn = false) (n : ℕ) :
    (tickN n s).runtime = s.runtime ∧ (tickN n s).totalEnergy = s.totalEnergy := by
  rw [tickN_off h n]
  exact ⟨rfl, rfl⟩

/-- Witness for C8: five firings at the fresh (off) start state. -/
theorem tick_off_leaves_counters_w :
    (tickN 5 (updateUI initState)).runtime = (updateUI initState).runtime ∧
    (tickN 5 (updateUI initState)).totalEnergy = (updateUI initState).totalEnergy :=
  tick_off_leaves_counters rfl 5

/-- C9: `turnOn` on a state that is already on, and `turnOff` on a state
that is already off, leave the entire state unchanged. -/
theorem turnOn_turnOff_noop (s t : BulbState)
    (hs : s.isOn = true) (ht : t.isOn = false) :
    turnOn s = s ∧ turnOff t = t := by
  constructor
  · unfold turnOn; rw [hs]; rfl
  · unfold turnOff; rw [ht]; rfl

/-- Witness for C9: toggling the fresh state on then calling `turnOn`, and
calling `turnOff` on the fresh (off) state. -/
theorem turnOn_turnOff_noop_w :
    turnOn (togglePower (updateUI initState)) = togglePower (updateUI initState) ∧
    turnOff (updateUI initState) = updateUI initState :=
  turnOn_turnOff_noop _ _ (by decide) rfl

/-- C10: `startAutoCycle` always initialises the direction to increasing;
for any starting brightness in [10,100), the first firing moves the value
up to `min (b+10) 100`, and the direction flips to decreasing exactly when
the value reaches 100. -/
theorem autoCycle_first_step_up (s : BulbState)
    (h1 : 10 ≤ s.brightness) (h2 : s.brightness < 100) :
    (autoCycleInit s).2 = 1 ∧
    (cycleStep (autoCycleInit s)).1 = min (s.brightness + 10) 100 ∧
    s.brightness < (cycleStep (autoCycleInit s)).1 ∧
    ((cycleStep (autoCycleInit s)).2 = -1 ↔
      (cycleStep (autoCycleInit s)).1 = 100) := by
  unfold autoCycleInit cycleStep
  dsimp only
  rcases le_or_lt 100 (s.brightness + 1 * 10) with h | h
  · rw [if_pos h]
    refine ⟨rfl, by dsimp; omega, by dsimp; omega, by dsimp; omega⟩
  · rw [if_neg (by omega), if_neg (by omega)]
    refine ⟨rfl, by dsimp; omega, by dsimp; omega, ?_⟩
    dsimp
    constructor <;> intro hc <;> omega

/-- Witness for C10 at the fresh start state (brightness 50). -/
theorem autoCycle_first_step_up_w :
    (autoCycleInit (updateUI initState)).2 = 1 ∧
    (cycleStep (autoCycleInit (updateUI initState))).1
      = min ((updateUI initState).brightness + 10) 100 ∧
    (updateUI initState).brightness
      < (cycleStep (autoCycleInit (updateUI initState))).1 ∧
    ((cycleStep (autoCycleInit (updateUI initState))).2 = -1 ↔
      (cycleStep (autoCycleInit (updateUI initState))).1 = 100) :=
  autoCycle_first_step_up (updateUI initState) (by decide) (by decide)
